import Mathlib

/-!
# Reshifter: the stats command, the backup test helpers and `store`

A shallow embedding of

* `rcli/cmd/stats.go` (`docollectstats`),
* `pkg/backup/backup_test.go` (`storetests`, `genentry`),

together with a model of `store`, which the test file calls and whose body is
in a file of the package that is not among the embedded ones. The model takes
from sections 4.3 and 4.4 of the specification what they state (which keys are
rejected, that the value is written to the mapped path with its parent
directories created as needed) and leaves open what they do not state (the
path a valid key is mapped to).

Go strings are embedded as `String`, the Go `int` results of the key counter as
`Int` (the code only compares them with 0 and prints them), a Go `error` as
`Option String` holding the text of `err.Error()`.
-/

set_option autoImplicit false

namespace Reshifter

/-! ## Types shared by the commands -/

/-- Modelled from the spec: the declaration of `types.KubernetesDistro`, an
enumeration with the constants `Vanilla` and `OpenShift`. The `default` branch
of `genentry` shows that the type has further values; `Other` stands for each
of them. -/
inductive KubernetesDistro where
  | Vanilla
  | OpenShift
  | Other (tag : Nat)
  deriving DecidableEq, Repr

/-- A Go `error`: `none` is `nil`, `some msg` an error whose `Error()` is `msg`. -/
abbrev GoError := Option String

/-- The two functions of package `discovery` that `docollectstats` calls. Their
bodies are not part of the embedded files, so they are parameters: each maps its
arguments to the three results the Go function returns. -/
structure Discovery where
  /-- Models `discovery.ProbeEtcd(endpoint)`, returning version, secure flag and error. -/
  ProbeEtcd : String → String × Bool × GoError
  /-- Models `discovery.CountKeysFor(endpoint, distro)`, returning keys, size and error. -/
  CountKeysFor : String → KubernetesDistro → Int × Int × GoError

/-- What a run of `docollectstats` does to the outside world, in order. -/
inductive Effect where
  /-- The call `log.Error(msg)`. -/
  | logError (msg : String)
  /-- The call `log.Errorf(format)` with no further argument. -/
  | logErrorf (format : String)
  /-- The text a call of `fmt.Printf` writes to standard output. -/
  | printf (out : String)
  /-- The call `discovery.ProbeEtcd(endpoint)`. -/
  | callProbeEtcd (endpoint : String)
  /-- The call `discovery.CountKeysFor(endpoint, distro)`. -/
  | callCountKeysFor (endpoint : String) (distro : KubernetesDistro)
  deriving DecidableEq, Repr

/-- Holds of the effects that write to standard output. -/
def Effect.isPrintf : Effect → Bool
  | .printf _ => true
  | _ => false

/-- Holds of the calls of `discovery.CountKeysFor`, whatever the distribution. -/
def Effect.isCountKeysFor : Effect → Bool
  | .callCountKeysFor _ _ => true
  | _ => false

/-- Holds of the calls of `discovery.ProbeEtcd`. -/
def Effect.isProbeEtcd : Effect → Bool
  | .callProbeEtcd _ => true
  | _ => false

/-- The texts written to standard output, in order. -/
def stdout : List Effect → List String
  | [] => []
  | .printf out :: es => out :: stdout es
  | _ :: es => stdout es

/-! ## `strings.Index` -/

/-- The search loop of `strings.Index`: `off` is the byte offset of the suffix
being looked at. -/
def indexAux (substr : List Char) : List Char → Nat → Int
  | [], off => if substr = [] then (off : Int) else -1
  | c :: cs, off =>
    if substr.isPrefixOf (c :: cs) then (off : Int)
    else indexAux substr cs (off + c.utf8Size)

/-- Go `strings.Index(s, substr)`: the byte index of the first instance of
`substr` in `s`, or `-1` when there is none. -/
def Index (s substr : String) : Int :=
  indexAux substr.toList s.toList 0

/-! ## `rcli/cmd/stats.go` -/

/-- The text of `fmt.Printf("Vanilla Kubernetes [keys:%d, size:%d]\n", vk, vs)`. -/
def vanillaLine (vk vs : Int) : String :=
  "Vanilla Kubernetes [keys:" ++ toString vk ++ ", size:" ++ toString vs ++ "]\n"

/-- The text of `fmt.Printf("OpenShift [keys:%d, size:%d]\n\n", osk, oss)`. -/
def openShiftLine (osk oss : Int) : String :=
  "OpenShift [keys:" ++ toString osk ++ ", size:" ++ toString oss ++ "]\n\n"

/-- The function `docollectstats` of `rcli/cmd/stats.go`, as the list of its
effects. -/
def docollectstats (d : Discovery) (endpoint : String) : List Effect :=
  if endpoint = "" ∨ Index endpoint "http" ≠ 0 then
    [Effect.logError "The endpoint is malformed"]
  else
    Effect.callProbeEtcd endpoint ::
    match (d.ProbeEtcd endpoint).2.2 with
    | some err => [Effect.logErrorf err]
    | none =>
      Effect.callCountKeysFor endpoint KubernetesDistro.Vanilla ::
      match d.CountKeysFor endpoint KubernetesDistro.Vanilla with
      | (_, _, some err) =>
        [Effect.logError ("Having problems calculating stats: " ++ err)]
      | (vk, vs, none) =>
        Effect.printf (vanillaLine vk vs) ::
        Effect.callCountKeysFor endpoint KubernetesDistro.OpenShift ::
        match d.CountKeysFor endpoint KubernetesDistro.OpenShift with
        | (osk, oss, _) =>
          if osk > 0 then [Effect.printf (openShiftLine osk oss)] else []

/-- The guard of `docollectstats`, in words: the endpoint is empty or does not
begin with the characters `http`. -/
def malformed (endpoint : String) : Prop :=
  endpoint = "" ∨ ¬ "http".toList <+: endpoint.toList

instance : DecidablePred malformed := fun endpoint => by
  unfold malformed
  infer_instance

/-- A `Discovery` whose three calls return the given results for every
argument; it supplies the concrete runs of the examples. -/
def constDiscovery (probe : String × Bool × GoError) (vanilla openshift : Int × Int × GoError) :
    Discovery where
  ProbeEtcd := fun _ => probe
  CountKeysFor := fun _ distro =>
    match distro with
    | KubernetesDistro.Vanilla => vanilla
    | _ => openshift

/-! ## `pkg/backup/backup_test.go`: `genentry` -/

/-- The three prefix constants of package `types` that `genentry` reads. Their
values are not part of the embedded files, so they are parameters. -/
structure Prefixes where
  /-- Stands for `types.LegacyKubernetesPrefix`. -/
  LegacyKubernetesPrefix : String
  /-- Stands for `types.KubernetesPrefix`. -/
  KubernetesPrefix : String
  /-- Stands for `types.OpenShiftPrefix`. -/
  OpenShiftPrefix : String

/-- The function `genentry` of `pkg/backup/backup_test.go`: key, value, error. -/
def genentry (t : Prefixes) (etcdversion : String) (distro : KubernetesDistro) :
    String × String × GoError :=
  match distro with
  | KubernetesDistro.Vanilla =>
    if etcdversion = "2" then
      (t.LegacyKubernetesPrefix ++ "/namespaces/kube-system",
        "\x7b\"kind\":\"Namespace\",\"apiVersion\":\"v1\"\x7d", none)
    else
      (t.KubernetesPrefix ++ "/namespaces/kube-system",
        "\x7b\"kind\":\"Namespace\",\"apiVersion\":\"v1\"\x7d", none)
  | KubernetesDistro.OpenShift =>
    (t.OpenShiftPrefix ++ "/builds",
      "\x7b\"kind\":\"Build\",\"apiVersion\":\"v1\"\x7d", none)
  | KubernetesDistro.Other _ =>
    ("", "", some "That\x27s not a Kubernetes distro")

/-! ## The file system

`store` writes a file and `TestStore` reads it back with `ioutil.ReadFile`, so
the model needs the files on disk. A path is walked the way the operating
system walks it when no symbolic link is involved, one segment after the other
from the root or from the current directory: an empty segment is skipped, `.`
stays, `..` goes to the parent directory, a name enters the entry of that name,
which has to be a directory unless it is the last segment. A path whose last
segment is empty (the path ends in `/`), `.` or `..` denotes a directory and
cannot be read or written as a file. -/

/-- Splits a path at every `/`; the segments may be empty. -/
def splitSlash : List Char → List (List Char)
  | [] => [[]]
  | c :: cs =>
    if c = '/' then [] :: splitSlash cs
    else
      match splitSlash cs with
      | [] => [[c]]
      | seg :: segs => (c :: seg) :: segs

/-- A place of the file system: the names from the root down to it. The root
is the empty list. -/
abbrev Place := List (List Char)

/-- What there is at a place: a regular file with its content, or a directory. -/
inductive Node where
  | file (content : String)
  | dir
  deriving DecidableEq, Repr

/-- The files and directories on disk and the current directory of the
process. An entry of `nodes` says what there is at a place, the most recent
entry for a place first; a place without entry does not exist. The root is
always a directory. -/
structure FileSystem where
  /-- What there is at each place. -/
  nodes : List (Place × Node)
  /-- The current directory, from which a relative path is walked. -/
  cwd : Place

/-- What there is at the place, if anything. -/
def FileSystem.node (fs : FileSystem) (place : Place) : Option Node :=
  if place = [] then some Node.dir else fs.nodes.lookup place

/-- Whether there is a directory at the place. -/
def FileSystem.isDir (fs : FileSystem) (place : Place) : Bool :=
  fs.node place == some Node.dir

/-- The file system with one more entry. -/
def FileSystem.put (fs : FileSystem) (place : Place) (node : Node) : FileSystem :=
  { fs with nodes := (place, node) :: fs.nodes }

/-- Where the walk along a path starts: at the root for a path that begins with
`/`, in the current directory otherwise. -/
def FileSystem.start (fs : FileSystem) (path : String) : Place :=
  if path.toList.head? = some '/' then [] else fs.cwd

/-- Whether a last segment denotes a directory: it is empty, `.` or `..`. -/
def namesDirectory (seg : List Char) : Bool :=
  decide (seg = [] ∨ seg = ['.'] ∨ seg = ['.', '.'])

/-- One segment of a walk that only looks: the place reached from `cur`, or
nothing when the segment cannot be followed. -/
def FileSystem.walk (fs : FileSystem) (cur : Place) (seg : List Char) : Option Place :=
  if seg = [] ∨ seg = ['.'] then some cur
  else if seg = ['.', '.'] then
    if fs.isDir cur.dropLast then some cur.dropLast else none
  else if fs.isDir (cur ++ [seg]) then some (cur ++ [seg]) else none

/-- One segment of a walk that creates the directories it needs: as `walk`,
but a name with nothing at it becomes a new directory. A file in the way stops
the walk. -/
def FileSystem.enter (fs : FileSystem) (cur : Place) (seg : List Char) :
    Option (FileSystem × Place) :=
  if seg = [] ∨ seg = ['.'] then some (fs, cur)
  else if seg = ['.', '.'] then
    if fs.isDir cur.dropLast then some (fs, cur.dropLast) else none
  else
    match fs.node (cur ++ [seg]) with
    | some Node.dir => some (fs, cur ++ [seg])
    | some (Node.file _) => none
    | none => some (fs.put (cur ++ [seg]) Node.dir, cur ++ [seg])

/-- Reads the file that the segments lead to from `cur`. -/
def FileSystem.readAt : FileSystem → Place → List (List Char) → Option String
  | _, _, [] => none
  | fs, cur, seg :: segs =>
    match segs with
    | [] =>
      if namesDirectory seg then none
      else
        match fs.node (cur ++ [seg]) with
        | some (Node.file content) => some content
        | _ => none
    | _ :: _ =>
      match fs.walk cur seg with
      | none => none
      | some next => fs.readAt next segs

/-- Writes `val` to the file that the segments lead to from `cur`, creating the
directories on the way; a directory at the place of the file, a file in the
way and a last segment that denotes a directory make it fail. -/
def FileSystem.writeAt (val : String) : FileSystem → Place → List (List Char) →
    Option FileSystem
  | _, _, [] => none
  | fs, cur, seg :: segs =>
    match segs with
    | [] =>
      if namesDirectory seg then none
      else
        match fs.node (cur ++ [seg]) with
        | some Node.dir => none
        | _ => some (fs.put (cur ++ [seg]) (Node.file val))
    | _ :: _ =>
      match fs.enter cur seg with
      | none => none
      | some (fs1, next) => FileSystem.writeAt val fs1 next segs

/-- Reads the regular file at `path` as `ioutil.ReadFile` does; `none` stands
for its error. -/
def FileSystem.readFile (fs : FileSystem) (path : String) : Option String :=
  if fs.isDir (fs.start path) then fs.readAt (fs.start path) (splitSlash path.toList)
  else none

/-! ## `store`

`backup_test.go` calls `store(based, path, val)`. Sections 4.3 and 4.4 of the
specification describe it as the Path Mapper followed by the Materializer. -/

/-- Modelled from the spec: the errors of section 7 that the Path Mapper and the
Materializer return. -/
inductive StoreError where
  | InvalidKey
  | WriteError (path : String)
  deriving DecidableEq, Repr

/-- Modelled from the spec: what section 4.3 leaves open in the Path Mapper. It
states properties of the path of a valid key but not the path itself, and names
a "sentinel path" for the root key without giving it; both are parameters. -/
structure MapperConfig where
  /-- The path of a key that begins with `/` and is not the root key, for a
  given working directory. -/
  keyPath : String → String → String
  /-- The sentinel path of the root key, for a given working directory. -/
  rootSentinel : String → String

/-- Whether the key begins with the root separator `/`. -/
def beginsWithSlash (key : String) : Bool :=
  key.toList.head? == some '/'

/-- Modelled from the spec: `mapToPath(key, workDir)` of section 4.3. The empty
key and a key that does not begin with `/` fail with `InvalidKey`; the root key
`/` maps to the sentinel path; every other key maps to the path the
configuration gives it. -/
def mapToPath (cfg : MapperConfig) (key workDir : String) : Except StoreError String :=
  if key = "" then Except.error StoreError.InvalidKey
  else if beginsWithSlash key = false then Except.error StoreError.InvalidKey
  else if key = "/" then Except.ok (cfg.rootSentinel workDir)
  else Except.ok (cfg.keyPath workDir key)

/-- Modelled from the spec: the leaf case of `materialize` in section 4.4,
"write the raw value bytes to the mapped file path, creating parent directories
as needed", where "overwriting an existing file at the same path is allowed
(last write wins)" and a failure of the file system gives `WriteError`. -/
def FileSystem.writeFile (fs : FileSystem) (path val : String) : Except StoreError FileSystem :=
  if fs.isDir (fs.start path) then
    match FileSystem.writeAt val fs (fs.start path) (splitSlash path.toList) with
    | some fs1 => Except.ok fs1
    | none => Except.error (StoreError.WriteError path)
  else Except.error (StoreError.WriteError path)

/-- Modelled from the spec: `store(based, path, val)`, the Path Mapper of
section 4.3 followed by the Materializer of section 4.4. It returns the path
written and the file system after the write. -/
def store (cfg : MapperConfig) (fs : FileSystem) (based path val : String) :
    Except StoreError (String × FileSystem) :=
  match mapToPath cfg path based with
  | Except.error e => Except.error e
  | Except.ok p =>
    match fs.writeFile p val with
    | Except.error e => Except.error e
    | Except.ok fs1 => Except.ok (p, fs1)

/-! ## `pkg/backup/backup_test.go`: the table of `TestStore` -/

/-- A row of the table `storetests`. -/
structure StoreTest where
  /-- The key handed to `store`. -/
  path : String
  /-- The value handed to `store`. -/
  val : String
  deriving DecidableEq, Repr

/-- The variable `tmpTestDir` of `backup_test.go`. -/
def tmpTestDir : String := "test/"

/-- The table `storetests` of `backup_test.go`. -/
def storetests : List StoreTest :=
  [ ⟨"", ""⟩,
    ⟨"non-valid-key", ""⟩,
    ⟨"/", "root"⟩,
    ⟨"/" ++ tmpTestDir, "some"⟩,
    ⟨"/" ++ tmpTestDir ++ "/first-level", "another"⟩,
    ⟨"/" ++ tmpTestDir ++ "/this:also", "escaped"⟩ ]

/-- A configuration for the examples: a key is written below the working
directory under its own name, the root key to the file `.root` in it. -/
def sampleConfig : MapperConfig where
  keyPath := fun workDir key => workDir ++ key
  rootSentinel := fun workDir => workDir ++ "/.root"

/-- The file system with nothing but the root, which is the current directory. -/
def emptyFileSystem : FileSystem where
  nodes := []
  cwd := []

/-- Every directory of the first file system is a directory of the second. -/
def dirsPreserved (fs1 fs2 : FileSystem) : Prop :=
  ∀ place, fs1.isDir place = true → fs2.isDir place = true

/-! ## Facts about `strings.Index` -/

theorem indexAux_ne_zero (substr : List Char) (s : List Char) (off : Nat) (h : 0 < off) :
    indexAux substr s off ≠ 0 := by
  induction s generalizing off with
  | nil =>
    unfold indexAux
    split <;> omega
  | cons c cs ih =>
    unfold indexAux
    split
    · omega
    · exact ih _ (by omega)

/-- `strings.Index(s, substr)` is 0 exactly when `s` begins with `substr`. -/
theorem Index_eq_zero_iff (s substr : String) :
    Index s substr = 0 ↔ substr.toList <+: s.toList := by
  unfold Index
  cases hs : s.toList with
  | nil =>
    unfold indexAux
    by_cases h : substr.toList = []
    · simp [h]
    · simp [h]
  | cons c cs =>
    unfold indexAux
    by_cases h : substr.toList.isPrefixOf (c :: cs) = true
    · simp only [h, if_true]
      simpa using List.isPrefixOf_iff_prefix.mp h
    · rw [if_neg h]
      have hne := indexAux_ne_zero substr.toList cs (0 + c.utf8Size)
        (by have := Char.utf8Size_pos c; omega)
      exact ⟨fun h0 => absurd h0 hne, fun hp => absurd (List.isPrefixOf_iff_prefix.mpr hp) h⟩

theorem guard_iff_malformed (endpoint : String) :
    (endpoint = "" ∨ Index endpoint "http" ≠ 0) ↔ malformed endpoint := by
  unfold malformed
  rw [Ne, Index_eq_zero_iff]

theorem docollectstats_of_malformed (d : Discovery) (endpoint : String)
    (h : malformed endpoint) :
    docollectstats d endpoint = [Effect.logError "The endpoint is malformed"] := by
  unfold docollectstats
  rw [if_pos ((guard_iff_malformed endpoint).mpr h)]

theorem docollectstats_of_wellformed (d : Discovery) (endpoint : String)
    (h : ¬ malformed endpoint) :
    docollectstats d endpoint =
      Effect.callProbeEtcd endpoint ::
      match (d.ProbeEtcd endpoint).2.2 with
      | some err => [Effect.logErrorf err]
      | none =>
        Effect.callCountKeysFor endpoint KubernetesDistro.Vanilla ::
        match d.CountKeysFor endpoint KubernetesDistro.Vanilla with
        | (_, _, some err) =>
          [Effect.logError ("Having problems calculating stats: " ++ err)]
        | (vk, vs, none) =>
          Effect.printf (vanillaLine vk vs) ::
          Effect.callCountKeysFor endpoint KubernetesDistro.OpenShift ::
          match d.CountKeysFor endpoint KubernetesDistro.OpenShift with
          | (osk, oss, _) =>
            if osk > 0 then [Effect.printf (openShiftLine osk oss)] else [] := by
  conv_lhs => unfold docollectstats
  rw [if_neg (fun hg => h ((guard_iff_malformed endpoint).mp hg))]

theorem vanillaLine_ne_openShiftLine (vk vs osk oss : Int) :
    vanillaLine vk vs ≠ openShiftLine osk oss := by
  intro h
  have hd := congrArg String.data h
  simp only [vanillaLine, openShiftLine, String.data_append] at hd
  have h0 := congrArg List.head? hd
  simp at h0

/-! ## The stats command -/

/-- C5: `docollectstats` logs "The endpoint is malformed" and does nothing else
(no probe, no key count, no output) exactly when the endpoint is empty or does
not begin with `http`; for every other endpoint its first effect is the call of
`discovery.ProbeEtcd` on that endpoint. -/
theorem docollectstats_malformed_exactly (d : Discovery) (endpoint : String) :
    (docollectstats d endpoint = [Effect.logError "The endpoint is malformed"] ↔
      malformed endpoint) ∧
    (malformed endpoint →
      (∀ x ∈ docollectstats d endpoint,
        x.isProbeEtcd = false ∧ x.isCountKeysFor = false ∧ x.isPrintf = false)) ∧
    (¬ malformed endpoint →
      (docollectstats d endpoint).head? = some (Effect.callProbeEtcd endpoint)) := by
  refine ⟨⟨fun h => ?_, docollectstats_of_malformed d endpoint⟩, fun h => ?_, fun h => ?_⟩
  · by_contra hm
    rw [docollectstats_of_wellformed d endpoint hm] at h
    simp at h
  · rw [docollectstats_of_malformed d endpoint h]
    intro x hx
    simp only [List.mem_singleton] at hx
    subst hx
    exact ⟨rfl, rfl, rfl⟩
  · rw [docollectstats_of_wellformed d endpoint h]
    rfl

theorem docollectstats_malformed_exactly_witness :
    malformed "127.0.0.1:2379" ∧
    docollectstats (constDiscovery ("3", false, none) (1, 38, none) (0, 0, none))
      "127.0.0.1:2379" = [Effect.logError "The endpoint is malformed"] ∧
    ¬ malformed "http://127.0.0.1:2379" ∧
    (docollectstats (constDiscovery ("3", false, none) (1, 38, none) (0, 0, none))
      "http://127.0.0.1:2379").head? = some (Effect.callProbeEtcd "http://127.0.0.1:2379") :=
  ⟨by decide,
   (docollectstats_malformed_exactly _ "127.0.0.1:2379").1.mpr (by decide),
   by decide,
   (docollectstats_malformed_exactly _ "http://127.0.0.1:2379").2.2 (by decide)⟩

/-- C8: `docollectstats` stops at the first failure. If `discovery.ProbeEtcd`
returns an error, `CountKeysFor` is never called and nothing is printed; if the
probe succeeds and `CountKeysFor` for Vanilla returns an error, nothing is
printed and `CountKeysFor` for OpenShift is never called. -/
theorem docollectstats_stops_at_first_failure (d : Discovery) (endpoint : String) :
    (∀ err, (d.ProbeEtcd endpoint).2.2 = some err →
      (∀ x ∈ docollectstats d endpoint, x.isCountKeysFor = false) ∧
      stdout (docollectstats d endpoint) = []) ∧
    (∀ err, (d.ProbeEtcd endpoint).2.2 = none →
      (d.CountKeysFor endpoint KubernetesDistro.Vanilla).2.2 = some err →
      stdout (docollectstats d endpoint) = [] ∧
      ∀ ep, Effect.callCountKeysFor ep KubernetesDistro.OpenShift ∉
        docollectstats d endpoint) := by
  by_cases hm : malformed endpoint
  · rw [docollectstats_of_malformed d endpoint hm]
    simp [stdout, Effect.isCountKeysFor]
  · rw [docollectstats_of_wellformed d endpoint hm]
    refine ⟨fun err hp => ?_, fun err hp hv => ?_⟩
    · rw [hp]
      simp [stdout, Effect.isCountKeysFor]
    · rw [hp]
      rcases hcv : d.CountKeysFor endpoint KubernetesDistro.Vanilla with ⟨vk, vs, e⟩
      rw [hcv] at hv
      simp only at hv
      subst hv
      simp [stdout]

theorem docollectstats_stops_at_first_failure_witness :
    ((∀ x ∈ docollectstats
        (constDiscovery ("", false, some "no etcd") (1, 38, none) (2, 40, none))
        "http://127.0.0.1:2379", x.isCountKeysFor = false) ∧
      stdout (docollectstats
        (constDiscovery ("", false, some "no etcd") (1, 38, none) (2, 40, none))
        "http://127.0.0.1:2379") = []) ∧
    (stdout (docollectstats
        (constDiscovery ("3", false, none) (1, 38, some "timeout") (2, 40, none))
        "http://127.0.0.1:2379") = [] ∧
      ∀ ep, Effect.callCountKeysFor ep KubernetesDistro.OpenShift ∉
        docollectstats
          (constDiscovery ("3", false, none) (1, 38, some "timeout") (2, 40, none))
          "http://127.0.0.1:2379") :=
  ⟨(docollectstats_stops_at_first_failure
      (constDiscovery ("", false, some "no etcd") (1, 38, none) (2, 40, none))
      "http://127.0.0.1:2379").1 "no etcd" rfl,
   (docollectstats_stops_at_first_failure
      (constDiscovery ("3", false, none) (1, 38, some "timeout") (2, 40, none))
      "http://127.0.0.1:2379").2 "timeout" rfl rfl⟩

/-- C6, the claim as stated fails: on a well-formed endpoint where the probe and
both key counts succeed and the OpenShift result is (0, 0), only the Vanilla
line is printed; no line reports the OpenShift count. -/
theorem docollectstats_no_line_for_absent_openshift :
    (constDiscovery ("3", false, none) (1, 38, none) (0, 0, none)).ProbeEtcd
      "http://127.0.0.1:2379" = ("3", false, none) ∧
    (constDiscovery ("3", false, none) (1, 38, none) (0, 0, none)).CountKeysFor
      "http://127.0.0.1:2379" KubernetesDistro.Vanilla = (1, 38, none) ∧
    (constDiscovery ("3", false, none) (1, 38, none) (0, 0, none)).CountKeysFor
      "http://127.0.0.1:2379" KubernetesDistro.OpenShift = (0, 0, none) ∧
    stdout (docollectstats (constDiscovery ("3", false, none) (1, 38, none) (0, 0, none))
      "http://127.0.0.1:2379") = ["Vanilla Kubernetes [keys:1, size:38]\n"] := by
  decide

/-- C6 as amended: on a well-formed endpoint where the probe and both key
counts succeed, the output is the Vanilla line with the Vanilla key count and
size (also for the result (0, 0)), followed by the OpenShift line with the
OpenShift key count and size exactly when the OpenShift key count is greater
than 0. -/
theorem docollectstats_reports (d : Discovery) (endpoint : String) (vk vs osk oss : Int)
    (hm : ¬ malformed endpoint)
    (hp : (d.ProbeEtcd endpoint).2.2 = none)
    (hv : d.CountKeysFor endpoint KubernetesDistro.Vanilla = (vk, vs, none))
    (ho : d.CountKeysFor endpoint KubernetesDistro.OpenShift = (osk, oss, none)) :
    stdout (docollectstats d endpoint) =
      vanillaLine vk vs :: (if 0 < osk then [openShiftLine osk oss] else []) := by
  rw [docollectstats_of_wellformed d endpoint hm, hp, hv, ho]
  by_cases h : 0 < osk
  · simp [stdout, h]
  · simp [stdout, h]

theorem docollectstats_reports_witness :
    stdout (docollectstats (constDiscovery ("3", false, none) (0, 0, none) (2, 40, none))
      "http://127.0.0.1:2379") =
      vanillaLine 0 0 :: (if (0 : Int) < 2 then [openShiftLine 2 40] else []) :=
  docollectstats_reports _ "http://127.0.0.1:2379" 0 0 2 40 (by decide) rfl rfl rfl

/-- C9: the effects of `docollectstats` do not depend on the error that
`CountKeysFor` returns for OpenShift. Two runs that agree on the endpoint, the
probe result, the Vanilla result and the OpenShift key count and size have the
same effects, whether the OpenShift count returned an error or not. On a
well-formed endpoint with a probe and a Vanilla count without error, the
Vanilla line is printed for every Vanilla key count, 0 included, and the
OpenShift line is printed if and only if the OpenShift key count is greater
than 0, whatever error the OpenShift count returns. -/
theorem docollectstats_ignores_openshift_error (d₁ d₂ : Discovery) (endpoint : String)
    (hp : d₁.ProbeEtcd endpoint = d₂.ProbeEtcd endpoint)
    (hv : d₁.CountKeysFor endpoint KubernetesDistro.Vanilla =
      d₂.CountKeysFor endpoint KubernetesDistro.Vanilla)
    (hk : (d₁.CountKeysFor endpoint KubernetesDistro.OpenShift).1 =
      (d₂.CountKeysFor endpoint KubernetesDistro.OpenShift).1)
    (hs : (d₁.CountKeysFor endpoint KubernetesDistro.OpenShift).2.1 =
      (d₂.CountKeysFor endpoint KubernetesDistro.OpenShift).2.1) :
    docollectstats d₁ endpoint = docollectstats d₂ endpoint ∧
    (¬ malformed endpoint → (d₁.ProbeEtcd endpoint).2.2 = none →
      (d₁.CountKeysFor endpoint KubernetesDistro.Vanilla).2.2 = none →
      Effect.printf (vanillaLine (d₁.CountKeysFor endpoint KubernetesDistro.Vanilla).1
          (d₁.CountKeysFor endpoint KubernetesDistro.Vanilla).2.1) ∈
        docollectstats d₁ endpoint ∧
      (Effect.printf (openShiftLine (d₁.CountKeysFor endpoint KubernetesDistro.OpenShift).1
          (d₁.CountKeysFor endpoint KubernetesDistro.OpenShift).2.1) ∈
        docollectstats d₁ endpoint ↔
        0 < (d₁.CountKeysFor endpoint KubernetesDistro.OpenShift).1)) := by
  refine ⟨?_, fun hm hpn hvn => ?_⟩
  · by_cases hm : malformed endpoint
    · rw [docollectstats_of_malformed d₁ endpoint hm, docollectstats_of_malformed d₂ endpoint hm]
    · rw [docollectstats_of_wellformed d₁ endpoint hm, docollectstats_of_wellformed d₂ endpoint hm,
        ← hp, ← hv]
      rcases h1 : d₁.CountKeysFor endpoint KubernetesDistro.OpenShift with ⟨k1, s1, e1⟩
      rcases h2 : d₂.CountKeysFor endpoint KubernetesDistro.OpenShift with ⟨k2, s2, e2⟩
      rw [h1, h2] at hk hs
      simp only at hk hs
      subst hk hs
      rfl
  · rw [docollectstats_of_wellformed d₁ endpoint hm, hpn]
    rcases h1 : d₁.CountKeysFor endpoint KubernetesDistro.Vanilla with ⟨vk, vs, e⟩
    rw [h1] at hvn
    simp only at hvn
    subst hvn
    rcases h2 : d₁.CountKeysFor endpoint KubernetesDistro.OpenShift with ⟨osk, oss, e2⟩
    have hne := vanillaLine_ne_openShiftLine vk vs osk oss
    by_cases h : 0 < osk
    · simp [h]
    · simp [h, Ne.symm hne]

theorem docollectstats_ignores_openshift_error_witness :
    docollectstats (constDiscovery ("3", false, none) (1, 38, none) (2, 40, none))
        "http://127.0.0.1:2379" =
      docollectstats (constDiscovery ("3", false, none) (1, 38, none) (2, 40, some "timeout"))
        "http://127.0.0.1:2379" ∧
    ¬ malformed "http://127.0.0.1:2379" ∧
    (Effect.printf (vanillaLine 1 38) ∈
      docollectstats (constDiscovery ("3", false, none) (1, 38, none) (2, 40, some "timeout"))
        "http://127.0.0.1:2379" ∧
      (Effect.printf (openShiftLine 2 40) ∈
        docollectstats (constDiscovery ("3", false, none) (1, 38, none) (2, 40, some "timeout"))
          "http://127.0.0.1:2379" ↔ (0 : Int) < 2)) ∧
    (Effect.printf (vanillaLine 0 0) ∈
      docollectstats (constDiscovery ("3", false, none) (0, 0, none) (0, 0, none))
        "http://127.0.0.1:2379" ∧
      (Effect.printf (openShiftLine 0 0) ∈
        docollectstats (constDiscovery ("3", false, none) (0, 0, none) (0, 0, none))
          "http://127.0.0.1:2379" ↔ (0 : Int) < 0)) :=
  ⟨(docollectstats_ignores_openshift_error
      (constDiscovery ("3", false, none) (1, 38, none) (2, 40, none))
      (constDiscovery ("3", false, none) (1, 38, none) (2, 40, some "timeout"))
      "http://127.0.0.1:2379" rfl rfl rfl rfl).1,
   by decide,
   (docollectstats_ignores_openshift_error
      (constDiscovery ("3", false, none) (1, 38, none) (2, 40, some "timeout"))
      (constDiscovery ("3", false, none) (1, 38, none) (2, 40, none))
      "http://127.0.0.1:2379" rfl rfl rfl rfl).2 (by decide) rfl rfl,
   (docollectstats_ignores_openshift_error
      (constDiscovery ("3", false, none) (0, 0, none) (0, 0, none))
      (constDiscovery ("3", false, none) (0, 0, none) (0, 0, none))
      "http://127.0.0.1:2379" rfl rfl rfl rfl).2 (by decide) rfl rfl⟩

/-! ## The entry generator of the backup test -/

/-- C10: `genentry` picks the key from the fixed table. Vanilla with version
"2" gives the legacy prefix followed by `/namespaces/kube-system`, Vanilla with
any other version the current prefix followed by the same path, both with the
Namespace value and no error; OpenShift gives the OpenShift prefix followed by
`/builds` with the Build value and no error for every version; every other
distro gives the empty key, the empty value and an error. -/
theorem genentry_table (t : Prefixes) (etcdversion : String) :
    genentry t "2" KubernetesDistro.Vanilla =
      (t.LegacyKubernetesPrefix ++ "/namespaces/kube-system",
        "\x7b\"kind\":\"Namespace\",\"apiVersion\":\"v1\"\x7d", none) ∧
    (etcdversion ≠ "2" →
      genentry t etcdversion KubernetesDistro.Vanilla =
        (t.KubernetesPrefix ++ "/namespaces/kube-system",
          "\x7b\"kind\":\"Namespace\",\"apiVersion\":\"v1\"\x7d", none)) ∧
    genentry t etcdversion KubernetesDistro.OpenShift =
      (t.OpenShiftPrefix ++ "/builds",
        "\x7b\"kind\":\"Build\",\"apiVersion\":\"v1\"\x7d", none) ∧
    (∀ distro, distro ≠ KubernetesDistro.Vanilla → distro ≠ KubernetesDistro.OpenShift →
      ∃ err, genentry t etcdversion distro = ("", "", some err)) := by
  refine ⟨rfl, fun h => ?_, rfl, fun distro hv ho => ?_⟩
  · simp [genentry, h]
  · cases distro with
    | Vanilla => exact absurd rfl hv
    | OpenShift => exact absurd rfl ho
    | Other tag => exact ⟨_, rfl⟩

theorem genentry_table_witness :
    genentry ⟨"/kubernetes.io", "/registry", "/openshift.io"⟩ "3" KubernetesDistro.Vanilla =
      ("/registry/namespaces/kube-system",
        "\x7b\"kind\":\"Namespace\",\"apiVersion\":\"v1\"\x7d", none) ∧
    ∃ err, genentry ⟨"/kubernetes.io", "/registry", "/openshift.io"⟩ "3"
      (KubernetesDistro.Other 0) = ("", "", some err) :=
  ⟨(genentry_table ⟨"/kubernetes.io", "/registry", "/openshift.io"⟩ "3").2.1 (by decide),
   (genentry_table ⟨"/kubernetes.io", "/registry", "/openshift.io"⟩ "3").2.2.2
     (KubernetesDistro.Other 0) (by decide) (by decide)⟩

/-! ## Facts about the file system -/

theorem node_put (fs : FileSystem) (q place : Place) (n : Node) :
    (fs.put q n).node place =
      if place = [] then some Node.dir else if place = q then some n else fs.node place := by
  unfold FileSystem.node FileSystem.put
  by_cases h0 : place = []
  · simp [h0]
  · by_cases hq : place = q
    · simp [h0, hq, List.lookup]
    · have hb : (place == q) = false := by simpa using hq
      simp [h0, hq, List.lookup, hb]

theorem dirsPreserved_refl (fs : FileSystem) : dirsPreserved fs fs :=
  fun _ h => h

theorem dirsPreserved_trans (fs1 fs2 fs3 : FileSystem) (h12 : dirsPreserved fs1 fs2)
    (h23 : dirsPreserved fs2 fs3) : dirsPreserved fs1 fs3 :=
  fun place h => h23 place (h12 place h)

/-- A new entry at a place that is not a directory leaves every directory in
place. -/
theorem dirsPreserved_put (fs : FileSystem) (q : Place) (n : Node)
    (hq : fs.isDir q = false) : dirsPreserved fs (fs.put q n) := by
  intro place h
  have hne : place ≠ q := by
    intro e
    rw [e, hq] at h
    cases h
  unfold FileSystem.isDir at h ⊢
  rw [node_put]
  by_cases h0 : place = []
  · simp [h0]
  · rw [if_neg h0, if_neg hne]
    exact h

theorem isDir_put_dir (fs : FileSystem) (q : Place) : (fs.put q Node.dir).isDir q = true := by
  unfold FileSystem.isDir
  rw [node_put]
  by_cases h0 : q = []
  · simp [h0]
  · simp [h0]

theorem isDir_eq_false_of_node (fs : FileSystem) (q : Place)
    (h : fs.node q ≠ some Node.dir) : fs.isDir q = false := by
  unfold FileSystem.isDir
  simpa using h

/-- A segment entered while writing can be followed while reading, in every
file system that keeps the directories. -/
theorem walk_of_enter (fs fs1 : FileSystem) (cur next : Place) (seg : List Char)
    (h : fs.enter cur seg = some (fs1, next)) :
    dirsPreserved fs fs1 ∧ fs1.cwd = fs.cwd ∧
    ∀ fs2, dirsPreserved fs1 fs2 → fs2.walk cur seg = some next := by
  unfold FileSystem.enter at h
  unfold FileSystem.walk
  by_cases h1 : seg = [] ∨ seg = ['.']
  · rw [if_pos h1] at h
    simp only [Option.some.injEq, Prod.mk.injEq] at h
    obtain ⟨hfs, hn⟩ := h
    subst hfs hn
    exact ⟨dirsPreserved_refl fs, rfl, fun fs2 _ => by rw [if_pos h1]⟩
  · rw [if_neg h1] at h
    by_cases h2 : seg = ['.', '.']
    · rw [if_pos h2] at h
      by_cases hd : fs.isDir cur.dropLast = true
      · rw [if_pos hd] at h
        simp only [Option.some.injEq, Prod.mk.injEq] at h
        obtain ⟨hfs, hn⟩ := h
        subst hfs hn
        refine ⟨dirsPreserved_refl fs, rfl, fun fs2 hp => ?_⟩
        rw [if_neg h1, if_pos h2, if_pos (hp _ hd)]
      · rw [if_neg hd] at h
        cases h
    · rw [if_neg h2] at h
      cases hn : fs.node (cur ++ [seg]) with
      | none =>
        rw [hn] at h
        simp only [Option.some.injEq, Prod.mk.injEq] at h
        obtain ⟨hfs, hnext⟩ := h
        subst hfs hnext
        have hnd : fs.isDir (cur ++ [seg]) = false :=
          isDir_eq_false_of_node fs _ (by rw [hn]; simp)
        refine ⟨dirsPreserved_put fs _ _ hnd, rfl, fun fs2 hp => ?_⟩
        rw [if_neg h1, if_neg h2, if_pos (hp _ (isDir_put_dir fs _))]
      | some n =>
        rw [hn] at h
        cases n with
        | file content => cases h
        | dir =>
          simp only [Option.some.injEq, Prod.mk.injEq] at h
          obtain ⟨hfs, hnext⟩ := h
          subst hfs hnext
          have hd : fs.isDir (cur ++ [seg]) = true := by
            unfold FileSystem.isDir
            rw [hn]
            rfl
          refine ⟨dirsPreserved_refl fs, rfl, fun fs2 hp => ?_⟩
          rw [if_neg h1, if_neg h2, if_pos (hp _ hd)]

/-- What was written along the segments is read along them. -/
theorem readAt_of_writeAt (val : String) (segs : List (List Char)) :
    ∀ (fs fs1 : FileSystem) (cur : Place), FileSystem.writeAt val fs cur segs = some fs1 →
      dirsPreserved fs fs1 ∧ fs1.cwd = fs.cwd ∧ fs1.readAt cur segs = some val := by
  induction segs with
  | nil =>
    intro fs fs1 cur h
    unfold FileSystem.writeAt at h
    cases h
  | cons seg segs ih =>
    intro fs fs1 cur h
    unfold FileSystem.writeAt at h
    unfold FileSystem.readAt
    cases segs with
    | nil =>
      simp only at h ⊢
      by_cases hn : namesDirectory seg = true
      · rw [if_pos hn] at h
        cases h
      · rw [if_neg hn] at h
        rw [if_neg hn]
        have hnd : fs.node (cur ++ [seg]) ≠ some Node.dir := by
          intro e
          rw [e] at h
          cases h
        have hfs : fs1 = fs.put (cur ++ [seg]) (Node.file val) := by
          cases hnode : fs.node (cur ++ [seg]) with
          | none =>
            rw [hnode] at h
            simp only [Option.some.injEq] at h
            exact h.symm
          | some n =>
            cases n with
            | dir => exact absurd hnode hnd
            | file content =>
              rw [hnode] at h
              simp only [Option.some.injEq] at h
              exact h.symm
        subst hfs
        refine ⟨dirsPreserved_put fs _ _ (isDir_eq_false_of_node fs _ hnd), rfl, ?_⟩
        rw [node_put, if_neg (by simp), if_pos rfl]
    | cons s ss =>
      simp only at h ⊢
      cases he : fs.enter cur seg with
      | none =>
        rw [he] at h
        cases h
      | some r =>
        obtain ⟨fs0, next⟩ := r
        rw [he] at h
        simp only at h
        obtain ⟨hp0, hc0, hw⟩ := walk_of_enter fs fs0 cur next seg he
        obtain ⟨hp1, hc1, hr⟩ := ih fs0 fs1 next h
        refine ⟨dirsPreserved_trans fs fs0 fs1 hp0 hp1, hc1.trans hc0, ?_⟩
        rw [hw fs1 hp1]
        exact hr

/-- A file written through a path is read through the same path. -/
theorem readFile_of_writeFile (fs fs1 : FileSystem) (p v : String)
    (h : fs.writeFile p v = Except.ok fs1) : fs1.readFile p = some v := by
  unfold FileSystem.writeFile at h
  by_cases hd : fs.isDir (fs.start p) = true
  · rw [if_pos hd] at h
    cases hw : FileSystem.writeAt v fs (fs.start p) (splitSlash p.toList) with
    | none =>
      rw [hw] at h
      cases h
    | some fs2 =>
      rw [hw] at h
      simp only [Except.ok.injEq] at h
      subst h
      obtain ⟨hp, hc, hr⟩ := readAt_of_writeAt v _ fs fs2 _ hw
      have hs : fs2.start p = fs.start p := by
        unfold FileSystem.start
        rw [hc]
      unfold FileSystem.readFile
      rw [hs, if_pos (hp _ hd)]
      exact hr
  · rw [if_neg hd] at h
    cases h

/-! ## Facts about `store` -/

theorem mapToPath_of_invalid (cfg : MapperConfig) (key workDir : String)
    (h : key = "" ∨ beginsWithSlash key = false) :
    mapToPath cfg key workDir = Except.error StoreError.InvalidKey := by
  unfold mapToPath
  by_cases he : key = ""
  · rw [if_pos he]
  · rw [if_neg he]
    rcases h with h | h
    · exact absurd h he
    · rw [if_pos h]

theorem writeFile_of_store (cfg : MapperConfig) (fs : FileSystem) (dir k v p : String)
    (fs1 : FileSystem) (h : store cfg fs dir k v = Except.ok (p, fs1)) :
    mapToPath cfg k dir = Except.ok p ∧ fs.writeFile p v = Except.ok fs1 := by
  unfold store at h
  cases hm : mapToPath cfg k dir with
  | error e => rw [hm] at h; cases h
  | ok q =>
    rw [hm] at h
    simp only at h
    cases hw : fs.writeFile q v with
    | error e => rw [hw] at h; cases h
    | ok fs2 =>
      rw [hw] at h
      simp only [Except.ok.injEq, Prod.mk.injEq] at h
      rw [← h.1, ← h.2]
      exact ⟨rfl, hw⟩

/-! ## `store` -/

/-- C1: `store` returns the error `InvalidKey`, and so no path, when the key is
empty and when the key does not begin with `/`, for every working directory,
value, file system and configuration. -/
theorem store_rejects_invalid_key (cfg : MapperConfig) (fs : FileSystem) (dir k v : String)
    (h : k = "" ∨ beginsWithSlash k = false) :
    store cfg fs dir k v = Except.error StoreError.InvalidKey ∧
    ∀ p fs1, store cfg fs dir k v ≠ Except.ok (p, fs1) := by
  have hs : store cfg fs dir k v = Except.error StoreError.InvalidKey := by
    unfold store
    rw [mapToPath_of_invalid cfg k dir h]
  refine ⟨hs, fun p fs1 he => ?_⟩
  rw [hs] at he
  cases he

theorem store_rejects_invalid_key_witness :
    store sampleConfig emptyFileSystem "." "" "" = Except.error StoreError.InvalidKey ∧
    beginsWithSlash "non-valid-key" = false ∧
    store sampleConfig emptyFileSystem "." "non-valid-key" "" =
      Except.error StoreError.InvalidKey :=
  ⟨(store_rejects_invalid_key sampleConfig emptyFileSystem "." "" "" (Or.inl rfl)).1,
   by decide,
   (store_rejects_invalid_key sampleConfig emptyFileSystem "." "non-valid-key" ""
     (Or.inr (by decide))).1⟩

/-- C2: round trip of `store`. Whenever `store` succeeds and returns the path
`p`, reading the file at `p` in the resulting file system yields exactly the
value stored, for every working directory, key and value, whatever path the
Path Mapper gives the key. -/
theorem store_roundtrip (cfg : MapperConfig) (fs : FileSystem) (dir k v p : String)
    (fs1 : FileSystem) (h : store cfg fs dir k v = Except.ok (p, fs1)) :
    fs1.readFile p = some v := by
  obtain ⟨_, hw⟩ := writeFile_of_store cfg fs dir k v p fs1 h
  exact readFile_of_writeFile fs fs1 p v hw

theorem store_roundtrip_witness :
    (store sampleConfig emptyFileSystem "." "/" "root" =
        Except.ok ("./.root", ⟨[([".root".toList], Node.file "root")], []⟩) ∧
      FileSystem.readFile ⟨[([".root".toList], Node.file "root")], []⟩ "./.root" =
        some "root") ∧
    (store sampleConfig emptyFileSystem "." "/test//first-level" "another" =
        Except.ok ("./test//first-level",
          ⟨[(["test".toList, "first-level".toList], Node.file "another"),
            (["test".toList], Node.dir)], []⟩) ∧
      FileSystem.readFile
        ⟨[(["test".toList, "first-level".toList], Node.file "another"),
          (["test".toList], Node.dir)], []⟩ "./test//first-level" = some "another") :=
  ⟨⟨rfl, store_roundtrip sampleConfig emptyFileSystem "." "/" "root" _ _ rfl⟩,
   ⟨rfl, store_roundtrip sampleConfig emptyFileSystem "." "/test//first-level" "another" _ _
     rfl⟩⟩

/-- Every row of `storetests` on which `store` succeeds reads back its value,
which is what `TestStore` checks row by row. -/
theorem storetests_read_back (cfg : MapperConfig) (fs fs1 : FileSystem) (p : String) :
    ∀ tt ∈ storetests, store cfg fs "." tt.path tt.val = Except.ok (p, fs1) →
      (fs1.readFile p).getD "" = tt.val := by
  intro tt _ h
  rw [readFile_of_writeFile fs fs1 p tt.val (writeFile_of_store cfg fs "." tt.path tt.val p fs1 h).2]
  rfl

/-! ## The file system at the paths of the test table

A regular file cannot be written or read through a path that ends in `/`, and
a place is not a file and a directory at once. -/

theorem writeFile_trailing_slash_refused :
    emptyFileSystem.writeFile "./test/" "some" =
      Except.error (StoreError.WriteError "./test/") := by
  rfl

theorem readFile_trailing_slash_refused :
    (emptyFileSystem.put ["test".toList] (Node.file "some")).readFile "./test" = some "some" ∧
    (emptyFileSystem.put ["test".toList] (Node.file "some")).readFile "./test/" = none := by
  decide

theorem writeFile_below_file_refused :
    (emptyFileSystem.put ["test".toList] (Node.file "some")).writeFile "./test//first-level"
      "another" = Except.error (StoreError.WriteError "./test//first-level") := by
  rfl

theorem writeFile_on_directory_refused :
    (emptyFileSystem.put ["test".toList] Node.dir).writeFile "./test" "some" =
      Except.error (StoreError.WriteError "./test") := by
  rfl

end Reshifter
